import Mathlib

/-!
DECODE spline PSF: the pybind11 wrapper classes of `pybind_spline.cpp`

A shallow embedding of `PSFWrapperBase`, `PSFWrapperCUDA` and `PSFWrapperCPU`
(`deepsmlm/cpp_src/src/pybind_spline.cpp`) together with the properties of their
constructors and of `forward_psf`, `forward_rois` and `forward_frames`.

Modelling conventions.

* `int` is `Int` and arithmetic on it is exact: executions in which a signed
  multiplication overflows (undefined behaviour in C++) or in which an array has
  more elements than an `int` can count are outside the model.
* `py::array_t<T>` is a size together with the memory reachable from its data
  pointer, indexed by element offset.  A callee that receives `x.data()` gets the
  memory only, never the size, exactly as a `const float *` carries no length.
* `py::array_t<float> a(count)` allocates without initialising; numpy refuses a
  negative element count, which pybind11 reports by throwing
  `pybind11::error_already_set`.  Running out of memory is not modelled.
* The rendering library behind the wrappers (`spline_psf.h`, `spline_psf_gpu.cuh`)
  is not part of the sources.  The wrappers are therefore defined over an arbitrary
  library `Env`; the functions of `spline_psf.h` are C functions (the header is
  included inside a C linkage block), so they cannot throw and their results are
  not inspected by the wrappers; those of `spline_psf_gpu.cuh` are C++ and may
  throw.  Library functions are taken to return: what a C function does after
  an out-of-bounds access is outside the model.  `Spec.env` is one concrete
  library, written from the specification.
* Every call is recorded: a `Run` carries the object after the call, the library
  calls made, and the value returned or the exception thrown.
-/

namespace DECODE

/-- C++ exceptions that can leave a wrapper call. -/
inductive Exception where
  /-- The exception `std::invalid_argument`. -/
  | invalid_argument (what : String)
  /-- The exception `pybind11::error_already_set`: numpy raised a Python error. -/
  | error_already_set (what : String)
  /-- Any other exception, raised inside the GPU library. -/
  | runtime_error (what : String)
deriving DecidableEq, Repr

/-- Model of `py::array_t<T>`: `size()` and the memory behind `data()` / `mutable_data()`. -/
structure array_t (α : Type) where
  size : Nat
  data : Int → α

/-- Model of the constructor `py::array_t<T>(count)`: a new array of `count` elements whose
memory is whatever the allocator hands out (`fresh`); a negative count is rejected by numpy. -/
def array_t.alloc {α : Type} (fresh : Int → α) (count : Int) : Except Exception (array_t α) :=
  if count < 0 then
    Except.error (Exception.error_already_set "negative dimensions are not allowed")
  else
    Except.ok ⟨count.toNat, fresh⟩

/-- An array holding the elements of a list (memory outside the array reads as `d`). -/
def array_t.ofList {α : Type} (d : α) (l : List α) : array_t α :=
  ⟨l.length, fun i => if 0 ≤ i then l.getD i.toNat d else d⟩

/-- The rendering library the wrappers call into, and the allocator state.
`CSpline` is `spc::spline`, `GSpline` is `spg::spline`, `α` is `float`. -/
structure Env (CSpline GSpline α : Type) where
  /-- Contents of newly allocated, uninitialised memory. -/
  fresh : Int → α
  /-- The C function `spc::initSpline(coeff, xsize, ysize, zsize)`. -/
  initSpline : (Int → α) → Int → Int → Int → CSpline
  /-- The C function `spc::forward_rois(psf, rois, n, rx, ry, x, y, z, phot)`: the memory behind
  `rois` after the call. -/
  forward_rois : CSpline → (Int → α) → Int → Int → Int →
    (Int → α) → (Int → α) → (Int → α) → (Int → α) → (Int → α)
  /-- The C function `spc::forward_frames(psf, frames, fx, fy, n_emitters, rx, ry, frame_ix, xr, yr,
  z, x_ix, y_ix, phot)`: the memory behind `frames` after the call. -/
  forward_frames : CSpline → (Int → α) → Int → Int → Int → Int → Int →
    (Int → Int) → (Int → α) → (Int → α) → (Int → α) → (Int → Int) → (Int → Int) → (Int → α) →
    (Int → α)
  /-- The C++ function `spg::d_spline_init(coeff, xsize, ysize, zsize)`. -/
  d_spline_init : (Int → α) → Int → Int → Int → Except Exception GSpline
  /-- The C++ function `spg::forward_rois_host2host(psf, rois, n, rx, ry, x, y, z, phot)`: the memory
  behind `rois` after the call, or the exception it threw. -/
  forward_rois_host2host : GSpline → (Int → α) → Int → Int → Int →
    (Int → α) → (Int → α) → (Int → α) → (Int → α) → Except Exception (Int → α)

/-- A recorded call into the rendering library, with the arguments it was given. -/
inductive Call (CSpline GSpline α : Type) where
  | forward_rois (psf : CSpline) (rois : Int → α) (n rx ry : Int) (x y z phot : Int → α)
  | forward_frames (psf : CSpline) (frames : Int → α) (fx fy n_emitters rx ry : Int)
      (frame_ix : Int → Int) (xr yr z : Int → α) (x_ix y_ix : Int → Int) (phot : Int → α)
  | forward_rois_host2host (psf : GSpline) (rois : Int → α) (n rx ry : Int) (x y z phot : Int → α)

/-- Outcome of a member-function call: the object afterwards, the library calls made, and the
returned value or the exception that left the call. -/
structure Run (σ C β : Type) where
  self : σ
  calls : List C
  result : Except Exception β

/-- The class template `PSFWrapperBase<T>`; `psf` stands for the object behind the pointer `T *psf`.
The two-argument constructor leaves the frame sizes indeterminate (`none`). -/
structure PSFWrapperBase (T : Type) where
  psf : T
  roi_size_x : Int
  roi_size_y : Int
  frame_size_x : Option Int
  frame_size_y : Option Int

/-- The class `PSFWrapperCUDA`. -/
structure PSFWrapperCUDA (GSpline : Type) extends PSFWrapperBase GSpline

/-- The class `PSFWrapperCPU`. -/
structure PSFWrapperCPU (CSpline : Type) extends PSFWrapperBase CSpline

section wrappers

variable {CSpline GSpline α : Type}

/-- The constructor `PSFWrapperCUDA(coeff_xsize, coeff_ysize, coeff_zsize, roi_size_x_, roi_size_y_,
coeff)`: the base is initialised with the ROI sizes, then `psf = spg::d_spline_init(coeff.data(),
...)`. -/
def PSFWrapperCUDA.new (env : Env CSpline GSpline α)
    (coeff_xsize coeff_ysize coeff_zsize roi_size_x_ roi_size_y_ : Int) (coeff : array_t α) :
    Except Exception (PSFWrapperCUDA GSpline) :=
  match env.d_spline_init coeff.data coeff_xsize coeff_ysize coeff_zsize with
  | Except.error e => Except.error e
  | Except.ok psf => Except.ok ⟨⟨psf, roi_size_x_, roi_size_y_, none, none⟩⟩

/-- The constructor `PSFWrapperCPU(coeff_xsize, coeff_ysize, coeff_zsize, roi_size_x_, roi_size_y_,
coeff)`: the base is initialised with the ROI sizes, then `psf = spc::initSpline(coeff.data(),
...)`. -/
def PSFWrapperCPU.new (env : Env CSpline GSpline α)
    (coeff_xsize coeff_ysize coeff_zsize roi_size_x_ roi_size_y_ : Int) (coeff : array_t α) :
    Except Exception (PSFWrapperCPU CSpline) :=
  Except.ok ⟨⟨env.initSpline coeff.data coeff_xsize coeff_ysize coeff_zsize,
    roi_size_x_, roi_size_y_, none, none⟩⟩

/-- The member function `PSFWrapperCPU::forward_rois(x, y, z, phot)`. -/
def PSFWrapperCPU.forward_rois (env : Env CSpline GSpline α) (self : PSFWrapperCPU CSpline)
    (x y z phot : array_t α) :
    Run (PSFWrapperCPU CSpline) (Call CSpline GSpline α) (array_t α) :=
  let n : Int := x.size
  match array_t.alloc env.fresh (n * self.roi_size_x * self.roi_size_y) with
  | Except.error e => ⟨self, [], Except.error e⟩
  | Except.ok h_rois =>
    if self.roi_size_x ≠ self.roi_size_y then
      ⟨self, [], Except.error (Exception.invalid_argument "ROI size must be equal currently.")⟩
    else
      ⟨self,
        [Call.forward_rois self.psf h_rois.data n self.roi_size_x self.roi_size_y
          x.data y.data z.data phot.data],
        Except.ok ⟨h_rois.size,
          env.forward_rois self.psf h_rois.data n self.roi_size_x self.roi_size_y
            x.data y.data z.data phot.data⟩⟩

/-- The member function `PSFWrapperCPU::forward_frames(fx, fy, frame_ix, n_frames, xr, yr, z, x_ix,
y_ix, phot)`.  The frame sizes are stored in the object first; `n_frames` only enters the size of
the allocated array and is not among the arguments handed to `spc::forward_frames`. -/
def PSFWrapperCPU.forward_frames (env : Env CSpline GSpline α) (self : PSFWrapperCPU CSpline)
    (fx fy : Int) (frame_ix : array_t Int) (n_frames : Int) (xr yr z : array_t α)
    (x_ix y_ix : array_t Int) (phot : array_t α) :
    Run (PSFWrapperCPU CSpline) (Call CSpline GSpline α) (array_t α) :=
  let self1 : PSFWrapperCPU CSpline :=
    { self with frame_size_x := some fx, frame_size_y := some fy }
  let frame_size_x : Int := fx
  let frame_size_y : Int := fy
  let n_emitters : Int := xr.size
  match array_t.alloc env.fresh (n_frames * frame_size_x * frame_size_y) with
  | Except.error e => ⟨self1, [], Except.error e⟩
  | Except.ok h_frames =>
    ⟨self1,
      [Call.forward_frames self1.psf h_frames.data frame_size_x frame_size_y n_emitters
        self1.roi_size_x self1.roi_size_y frame_ix.data xr.data yr.data z.data x_ix.data y_ix.data
        phot.data],
      Except.ok ⟨h_frames.size,
        env.forward_frames self1.psf h_frames.data frame_size_x frame_size_y n_emitters
          self1.roi_size_x self1.roi_size_y frame_ix.data xr.data yr.data z.data x_ix.data
          y_ix.data phot.data⟩⟩

end wrappers

/-! ## A concrete rendering library, written from the specification -/

namespace Spec

/-- Modelled from the spec: the spline handle (`spc::spline`, `spg::spline`; both declarations are
in headers that are not part of the sources).  It is the coefficient tensor of the data model:
dimensions `(nx, ny, nz)` and, per cell, 64 coefficients, stored flat. -/
structure spline where
  coeff : Int → ℚ
  nx : Int
  ny : Int
  nz : Int

/-- Modelled from the spec: `initSpline` / `d_spline_init` (absent from the sources) build the
tensor "from a flat input buffer plus (nx, ny, nz)".  Only the data pointer is received, so the
length of the buffer cannot be inspected here. -/
def initSpline (coeff : Int → ℚ) (xsize ysize zsize : Int) : spline :=
  ⟨coeff, xsize, ysize, zsize⟩

/-- Modelled from the spec: the edge policy of the evaluator, "clamped to the nearest valid cell
index before lookup". -/
def clamp (i n : Int) : Int :=
  max 0 (min i (n - 1))

/-- Modelled from the spec: cell lookup `coefficients(ix, iy, iz)` at the powers `(i, j, k)`.  The
flat position is column-major over `(ix, iy, iz, i, j, k)`; the specification fixes no more than
"fixed once and used consistently". -/
def coefficient (sp : spline) (ix iy iz : Int) (i j k : Nat) : ℚ :=
  sp.coeff (ix + sp.nx * (iy + sp.ny * (iz + sp.nz * ((i : Int) + 4 * ((j : Int) + 4 * (k : Int))))))

/-- Modelled from the spec: the spline evaluator, `evaluate(x, y, z)` is the tricubic polynomial
of the fractional offsets in the (clamped) cell `floor(x), floor(y), floor(z)`. -/
def evaluate (sp : spline) (x y z : ℚ) : ℚ :=
  let ix := clamp ⌊x⌋ sp.nx
  let iy := clamp ⌊y⌋ sp.ny
  let iz := clamp ⌊z⌋ sp.nz
  let fx : ℚ := x - ⌊x⌋
  let fy : ℚ := y - ⌊y⌋
  let fz : ℚ := z - ⌊z⌋
  ((List.range 4).map fun i =>
    ((List.range 4).map fun j =>
      ((List.range 4).map fun k =>
        coefficient sp ix iy iz i j k * fx ^ i * fy ^ j * fz ^ k).sum).sum).sum

/-- Modelled from the spec: one pixel of the ROI renderer, "pixel (px, py) holds
phot * evaluate(x - rx/2 + px + 0.5, y - ry/2 + py + 0.5, z)". -/
def roi_pixel (sp : spline) (rx ry : Int) (x y z phot : ℚ) (px py : Nat) : ℚ :=
  phot * evaluate sp (x - (rx : ℚ) / 2 + px + 1 / 2) (y - (ry : ℚ) / 2 + py + 1 / 2) z

/-- Modelled from the spec: the batched ROI renderer behind `spc::forward_rois` (absent from the
sources): "given n emitters, produces n independent ROIs", ROI `i` at offset `i * rx * ry` of the
output, row `py` at `py * rx` inside it.  Being a C function it reports no error. -/
def forward_rois (sp : spline) (rois : Int → ℚ) (n rx ry : Int) (x y z phot : Int → ℚ) :
    Int → ℚ :=
  (List.range n.toNat).foldl (fun mem (i : ℕ) =>
    (List.range ry.toNat).foldl (fun mem (py : ℕ) =>
      (List.range rx.toNat).foldl (fun mem (px : ℕ) =>
        Function.update mem ((i : Int) * rx * ry + (py : Int) * rx + (px : Int))
          (roi_pixel sp rx ry (x i) (y i) (z i) (phot i) px py)) mem) mem) rois

/-- Modelled from the spec: the frame composer behind `spc::forward_frames` (absent from the
sources): for each emitter, "add each ROI pixel into frame[frame_index][y_ix+py][x_ix+px] for all
(px, py) that fall inside [0, fx) x [0, fy)", other pixels being dropped.  The function is given
the arguments the wrapper passes, which do not include the number of frames; being a C function
it reports no error. -/
def forward_frames (sp : spline) (frames : Int → ℚ) (fx fy n_emitters rx ry : Int)
    (frame_ix : Int → Int) (xr yr z : Int → ℚ) (x_ix y_ix : Int → Int) (phot : Int → ℚ) :
    Int → ℚ :=
  (List.range n_emitters.toNat).foldl (fun mem (i : ℕ) =>
    (List.range ry.toNat).foldl (fun mem (py : ℕ) =>
      (List.range rx.toNat).foldl (fun mem (px : ℕ) =>
        let X : Int := x_ix i + px
        let Y : Int := y_ix i + py
        if 0 ≤ X ∧ X < fx ∧ 0 ≤ Y ∧ Y < fy then
          let o : Int := frame_ix i * fx * fy + Y * fx + X
          Function.update mem o (mem o + roi_pixel sp rx ry (xr i) (yr i) (z i) (phot i) px py)
        else mem) mem) mem) frames

/-- Modelled from the spec: the library as a whole.  The parallel backend renders the same ROIs as
the sequential one ("interchangeable without changing numerical output").  The restriction to
square ROIs is the guard inside `PSFWrapperCPU::forward_rois`; it is not repeated inside the
renderers.  `fresh` is the content of uninitialised memory. -/
def env (fresh : Int → ℚ) : Env spline spline ℚ where
  fresh := fresh
  initSpline := initSpline
  forward_rois := forward_rois
  forward_frames := forward_frames
  d_spline_init := fun coeff xsize ysize zsize => Except.ok (initSpline coeff xsize ysize zsize)
  forward_rois_host2host := fun sp rois n rx ry x y z phot =>
    Except.ok (forward_rois sp rois n rx ry x y z phot)

end Spec

/-! ## Concrete objects and inputs -/

namespace Examples

/-- A library instance in which uninitialised memory reads as `1`. -/
def lib : Env Spec.spline Spec.spline ℚ :=
  Spec.env (fun _ => 1)

/-- A one-cell coefficient tensor with all coefficients zero. -/
def sp : Spec.spline :=
  Spec.initSpline (fun _ => 0) 1 1 1

/-- A sequential model with the given ROI sizes, as its constructor leaves it. -/
def cpu (rx ry : Int) : PSFWrapperCPU Spec.spline :=
  ⟨⟨sp, rx, ry, none, none⟩⟩

/-- A `float` array with the given elements. -/
def floats (l : List ℚ) : array_t ℚ :=
  array_t.ofList 0 l

/-- An `int` array with the given elements. -/
def ints (l : List Int) : array_t Int :=
  array_t.ofList 0 l

/-- A coefficient buffer of 65 elements, one more than a `1 x 1 x 1` tensor holds. -/
def coeff65 : array_t ℚ :=
  ⟨65, fun _ => 0⟩

/-- The sequential model with ROI size `3 x 3` after a `forward_frames` call with frame size
`9 x 8` (one frame, no emitter). -/
def used : PSFWrapperCPU Spec.spline :=
  (PSFWrapperCPU.forward_frames lib (cpu 3 3) 9 8 (ints []) 1 (floats []) (floats []) (floats [])
    (ints []) (ints []) (floats [])).self

end Examples

/-! ## Lemmas on allocation and on the three outcomes of `forward_rois` -/

section lemmas

variable {CSpline GSpline α : Type}

theorem alloc_of_nonneg (fresh : Int → α) {count : Int} (h : 0 ≤ count) :
    array_t.alloc fresh count = Except.ok ⟨count.toNat, fresh⟩ := by
  simp [array_t.alloc, not_lt.mpr h]

theorem alloc_of_neg (fresh : Int → α) {count : Int} (h : count < 0) :
    array_t.alloc fresh count
      = Except.error (Exception.error_already_set "negative dimensions are not allowed") := by
  simp [array_t.alloc, h]

theorem square_count_nonneg (n : Nat) (rx ry : Int) (h : rx = ry) : 0 ≤ (n : Int) * rx * ry := by
  subst h
  have h1 : 0 ≤ (n : Int) := Int.ofNat_nonneg n
  have h2 : 0 ≤ rx * rx := mul_self_nonneg rx
  calc (0 : Int) ≤ (n : Int) * (rx * rx) := mul_nonneg h1 h2
    _ = (n : Int) * rx * rx := by ring

theorem cpu_forward_rois_of_neg (env : Env CSpline GSpline α) (self : PSFWrapperCPU CSpline)
    (x y z phot : array_t α) (h : (x.size : Int) * self.roi_size_x * self.roi_size_y < 0) :
    PSFWrapperCPU.forward_rois env self x y z phot
      = ⟨self, [],
          Except.error (Exception.error_already_set "negative dimensions are not allowed")⟩ := by
  simp only [PSFWrapperCPU.forward_rois, alloc_of_neg env.fresh h]

theorem cpu_forward_rois_of_ne (env : Env CSpline GSpline α) (self : PSFWrapperCPU CSpline)
    (x y z phot : array_t α) (h : 0 ≤ (x.size : Int) * self.roi_size_x * self.roi_size_y)
    (hne : self.roi_size_x ≠ self.roi_size_y) :
    PSFWrapperCPU.forward_rois env self x y z phot
      = ⟨self, [],
          Except.error (Exception.invalid_argument "ROI size must be equal currently.")⟩ := by
  simp only [PSFWrapperCPU.forward_rois, alloc_of_nonneg env.fresh h, if_pos hne]

theorem cpu_forward_rois_of_eq (env : Env CSpline GSpline α) (self : PSFWrapperCPU CSpline)
    (x y z phot : array_t α) (heq : self.roi_size_x = self.roi_size_y) :
    PSFWrapperCPU.forward_rois env self x y z phot
      = ⟨self,
          [Call.forward_rois self.psf env.fresh x.size self.roi_size_x self.roi_size_y
            x.data y.data z.data phot.data],
          Except.ok ⟨((x.size : Int) * self.roi_size_x * self.roi_size_y).toNat,
            env.forward_rois self.psf env.fresh x.size self.roi_size_x self.roi_size_y
              x.data y.data z.data phot.data⟩⟩ := by
  have h := square_count_nonneg x.size _ _ heq
  have hne : ¬ (self.roi_size_x ≠ self.roi_size_y) := not_not.mpr heq
  simp only [PSFWrapperCPU.forward_rois, alloc_of_nonneg env.fresh h, if_neg hne]

theorem cpu_forward_frames_of_nonneg (env : Env CSpline GSpline α) (self : PSFWrapperCPU CSpline)
    (fx fy : Int) (frame_ix : array_t Int) (n_frames : Int) (xr yr z : array_t α)
    (x_ix y_ix : array_t Int) (phot : array_t α) (h : 0 ≤ n_frames * fx * fy) :
    PSFWrapperCPU.forward_frames env self fx fy frame_ix n_frames xr yr z x_ix y_ix phot
      = ⟨{ self with frame_size_x := some fx, frame_size_y := some fy },
          [Call.forward_frames self.psf env.fresh fx fy xr.size self.roi_size_x self.roi_size_y
            frame_ix.data xr.data yr.data z.data x_ix.data y_ix.data phot.data],
          Except.ok ⟨(n_frames * fx * fy).toNat,
            env.forward_frames self.psf env.fresh fx fy xr.size self.roi_size_x self.roi_size_y
              frame_ix.data xr.data yr.data z.data x_ix.data y_ix.data phot.data⟩⟩ := by
  simp only [PSFWrapperCPU.forward_frames, alloc_of_nonneg env.fresh h]

theorem cpu_forward_frames_of_neg (env : Env CSpline GSpline α) (self : PSFWrapperCPU CSpline)
    (fx fy : Int) (frame_ix : array_t Int) (n_frames : Int) (xr yr z : array_t α)
    (x_ix y_ix : array_t Int) (phot : array_t α) (h : n_frames * fx * fy < 0) :
    PSFWrapperCPU.forward_frames env self fx fy frame_ix n_frames xr yr z x_ix y_ix phot
      = ⟨{ self with frame_size_x := some fx, frame_size_y := some fy }, [],
          Except.error (Exception.error_already_set "negative dimensions are not allowed")⟩ := by
  simp only [PSFWrapperCPU.forward_frames, alloc_of_neg env.fresh h]

theorem cpu_forward_rois_self (env : Env CSpline GSpline α) (self : PSFWrapperCPU CSpline)
    (x y z phot : array_t α) :
    (PSFWrapperCPU.forward_rois env self x y z phot).self = self := by
  by_cases hc : (x.size : Int) * self.roi_size_x * self.roi_size_y < 0
  · rw [cpu_forward_rois_of_neg env self x y z phot hc]
  · by_cases hne : self.roi_size_x ≠ self.roi_size_y
    · rw [cpu_forward_rois_of_ne env self x y z phot (not_lt.mp hc) hne]
    · rw [cpu_forward_rois_of_eq env self x y z phot (not_not.mp hne)]

theorem cpu_forward_frames_not_invalid_argument (env : Env CSpline GSpline α)
    (self : PSFWrapperCPU CSpline) (fx fy : Int) (frame_ix : array_t Int) (n_frames : Int)
    (xr yr z : array_t α) (x_ix y_ix : array_t Int) (phot : array_t α) (what : String) :
    (PSFWrapperCPU.forward_frames env self fx fy frame_ix n_frames xr yr z x_ix y_ix phot).result
      ≠ Except.error (Exception.invalid_argument what) := by
  by_cases hc : n_frames * fx * fy < 0
  · rw [cpu_forward_frames_of_neg env self fx fy frame_ix n_frames xr yr z x_ix y_ix phot hc]
    simp
  · rw [cpu_forward_frames_of_nonneg env self fx fy frame_ix n_frames xr yr z x_ix y_ix phot
      (not_lt.mp hc)]
    simp

theorem cpu_forward_frames_empty_batch (env : Env CSpline GSpline α)
    (self : PSFWrapperCPU CSpline) (fx fy : Int) (frame_ix : array_t Int) (n_frames : Int)
    (xr yr z : array_t α) (x_ix y_ix : array_t Int) (phot : array_t α)
    (h : 0 ≤ n_frames * fx * fy) (hn : xr.size = 0)
    (hlib : ∀ psf mem a b rx ry f p q r s t u,
      env.forward_frames psf mem a b 0 rx ry f p q r s t u = mem) :
    (PSFWrapperCPU.forward_frames env self fx fy frame_ix n_frames xr yr z x_ix y_ix phot).result
      = Except.ok ⟨(n_frames * fx * fy).toNat, env.fresh⟩ := by
  rw [cpu_forward_frames_of_nonneg env self fx fy frame_ix n_frames xr yr z x_ix y_ix phot h]
  simp only [hn, Nat.cast_zero, hlib]

theorem spec_forward_frames_empty_batch (sp : Spec.spline) (mem : Int → ℚ) (a b rx ry : Int)
    (f : Int → Int) (p q r : Int → ℚ) (s t : Int → Int) (u : Int → ℚ) :
    Spec.forward_frames sp mem a b 0 rx ry f p q r s t u = mem := by
  simp [Spec.forward_frames]

end lemmas

/-! ## The claims -/

section claims

variable {CSpline GSpline α : Type}

/-- C4, at the failing input: one frame of `1 x 1` pixels and no emitter.  The buffer that
`forward_frames` returns holds what the uninitialised allocation held, here `1`, not `0`. -/
theorem C4_frames_not_zero_initialised :
    ∃ buf, (PSFWrapperCPU.forward_frames Examples.lib (Examples.cpu 1 1) 1 1 (Examples.ints []) 1
        (Examples.floats []) (Examples.floats []) (Examples.floats []) (Examples.ints [])
        (Examples.ints []) (Examples.floats [])).result = Except.ok buf ∧
      buf.size = 1 ∧ buf.data 0 = Examples.lib.fresh 0 ∧ buf.data 0 ≠ 0 := by
  rw [cpu_forward_frames_empty_batch Examples.lib (Examples.cpu 1 1) 1 1 (Examples.ints []) 1
    (Examples.floats []) (Examples.floats []) (Examples.floats []) (Examples.ints [])
    (Examples.ints []) (Examples.floats []) (by decide) rfl
    (fun psf mem a b rx ry f p q r s t u =>
      spec_forward_frames_empty_batch psf mem a b rx ry f p q r s t u)]
  refine ⟨_, rfl, rfl, rfl, ?_⟩
  simp [Examples.lib, Spec.env]

/-- C7, as stated, fails: all per-emitter arrays are empty except `phot`, which has one element;
the call raises nothing and returns a buffer. -/
theorem C7_counterexample :
    (Examples.floats []).size ≠ (Examples.floats [1]).size ∧
    ∃ buf, (PSFWrapperCPU.forward_frames Examples.lib (Examples.cpu 1 1) 1 1 (Examples.ints []) 1
        (Examples.floats []) (Examples.floats []) (Examples.floats []) (Examples.ints [])
        (Examples.ints []) (Examples.floats [1])).result = Except.ok buf := by
  refine ⟨by decide, ?_⟩
  rw [cpu_forward_frames_of_nonneg _ _ _ _ _ _ _ _ _ _ _ _ (by decide)]
  exact ⟨_, rfl⟩

/-- C7, amended: `forward_frames` does not compare the lengths of its per-emitter arrays.  It never
fails with the invalid-argument error, and only the length of `xr` is read (as the number of
emitters): giving `frame_ix`, `yr`, `z`, `x_ix`, `y_ix` and `phot` any other lengths changes
nothing of the call. -/
theorem C7_forward_frames_no_length_check (env : Env CSpline GSpline α)
    (self : PSFWrapperCPU CSpline) (fx fy : Int) (frame_ix : array_t Int) (n_frames : Int)
    (xr yr z : array_t α) (x_ix y_ix : array_t Int) (phot : array_t α) :
    (∀ what,
      (PSFWrapperCPU.forward_frames env self fx fy frame_ix n_frames xr yr z x_ix y_ix phot).result
        ≠ Except.error (Exception.invalid_argument what)) ∧
    ∀ k1 k2 k3 k4 k5 k6 : Nat,
      PSFWrapperCPU.forward_frames env self fx fy ⟨k1, frame_ix.data⟩ n_frames xr ⟨k2, yr.data⟩
          ⟨k3, z.data⟩ ⟨k4, x_ix.data⟩ ⟨k5, y_ix.data⟩ ⟨k6, phot.data⟩
        = PSFWrapperCPU.forward_frames env self fx fy frame_ix n_frames xr yr z x_ix y_ix phot := by
  refine ⟨fun what => cpu_forward_frames_not_invalid_argument env self fx fy frame_ix n_frames
    xr yr z x_ix y_ix phot what, ?_⟩
  intro k1 k2 k3 k4 k5 k6
  rfl

/-- C8, as stated, fails: a buffer of 65 coefficients with a `1 x 1 x 1` tensor (which holds 64)
is accepted, and the sequential constructor produces a model. -/
theorem C8_counterexample :
    (Examples.coeff65.size : Int) ≠ 1 * 1 * 1 * 64 ∧
    ∃ m, PSFWrapperCPU.new Examples.lib 1 1 1 7 7 Examples.coeff65 = Except.ok m := by
  refine ⟨by decide, _, rfl⟩

/-- C8, amended: construction does not check the number of elements of the coefficient buffer.
The sequential constructor produces a model for every buffer, holding the given ROI sizes and
the handle `initSpline` built from the data pointer and the three sizes; and for both backends
the outcome is the same for every length of the buffer, which is never read. -/
theorem C8_construction_no_size_check (env : Env CSpline GSpline α)
    (coeff_xsize coeff_ysize coeff_zsize roi_size_x roi_size_y : Int) (coeff : array_t α) :
    (∃ m, PSFWrapperCPU.new env coeff_xsize coeff_ysize coeff_zsize roi_size_x roi_size_y coeff
        = Except.ok m ∧
      m.roi_size_x = roi_size_x ∧ m.roi_size_y = roi_size_y ∧
      m.psf = env.initSpline coeff.data coeff_xsize coeff_ysize coeff_zsize) ∧
    ∀ k : Nat,
      PSFWrapperCPU.new env coeff_xsize coeff_ysize coeff_zsize roi_size_x roi_size_y
          ⟨k, coeff.data⟩
        = PSFWrapperCPU.new env coeff_xsize coeff_ysize coeff_zsize roi_size_x roi_size_y coeff ∧
      PSFWrapperCUDA.new env coeff_xsize coeff_ysize coeff_zsize roi_size_x roi_size_y
          ⟨k, coeff.data⟩
        = PSFWrapperCUDA.new env coeff_xsize coeff_ysize coeff_zsize roi_size_x roi_size_y
          coeff := by
  refine ⟨⟨_, rfl, rfl, rfl, rfl⟩, ?_⟩
  intro k
  exact ⟨rfl, rfl⟩

/-- C10: `forward_frames` stores `fx` and `fy` as the frame sizes of the model and leaves the ROI
sizes and the spline handle unchanged; `forward_rois` leaves the whole model unchanged; and two
models with the same spline handle and ROI sizes, whatever their frame sizes, give the same
result (buffer length included) and the same call into the renderer. -/
theorem C10_wrapper_state (env : Env CSpline GSpline α) (self other : PSFWrapperCPU CSpline)
    (fx fy : Int) (frame_ix : array_t Int) (n_frames : Int) (xr yr z : array_t α)
    (x_ix y_ix : array_t Int) (phot : array_t α) (x y zr photr : array_t α)
    (hpsf : other.psf = self.psf) (hx : other.roi_size_x = self.roi_size_x)
    (hy : other.roi_size_y = self.roi_size_y) :
    ((PSFWrapperCPU.forward_frames env self fx fy frame_ix n_frames xr yr z x_ix y_ix phot).self
        = { self with frame_size_x := some fx, frame_size_y := some fy }) ∧
    (PSFWrapperCPU.forward_rois env self x y zr photr).self = self ∧
    (PSFWrapperCPU.forward_frames env other fx fy frame_ix n_frames xr yr z x_ix y_ix phot).result
      = (PSFWrapperCPU.forward_frames env self fx fy frame_ix n_frames xr yr z x_ix y_ix
          phot).result ∧
    (PSFWrapperCPU.forward_frames env other fx fy frame_ix n_frames xr yr z x_ix y_ix phot).calls
      = (PSFWrapperCPU.forward_frames env self fx fy frame_ix n_frames xr yr z x_ix y_ix
          phot).calls := by
  refine ⟨?_, cpu_forward_rois_self env self x y zr photr, ?_⟩
  · by_cases hc : n_frames * fx * fy < 0
    · rw [cpu_forward_frames_of_neg env self fx fy frame_ix n_frames xr yr z x_ix y_ix phot hc]
    · rw [cpu_forward_frames_of_nonneg env self fx fy frame_ix n_frames xr yr z x_ix y_ix phot
        (not_lt.mp hc)]
  · by_cases hc : n_frames * fx * fy < 0
    · rw [cpu_forward_frames_of_neg env self fx fy frame_ix n_frames xr yr z x_ix y_ix phot hc,
        cpu_forward_frames_of_neg env other fx fy frame_ix n_frames xr yr z x_ix y_ix phot hc]
      exact ⟨rfl, rfl⟩
    · rw [cpu_forward_frames_of_nonneg env self fx fy frame_ix n_frames xr yr z x_ix y_ix phot
        (not_lt.mp hc),
        cpu_forward_frames_of_nonneg env other fx fy frame_ix n_frames xr yr z x_ix y_ix phot
        (not_lt.mp hc)]
      simp only [hpsf, hx, hy, and_self]

/-- C10, witness: the model left behind by an earlier `forward_frames` call with frame size
`9 x 8` renders two frames of `4 x 3` pixels exactly as the freshly constructed model does. -/
theorem C10_witness :
    Examples.used.psf = (Examples.cpu 3 3).psf ∧
    Examples.used.roi_size_x = (Examples.cpu 3 3).roi_size_x ∧
    Examples.used.roi_size_y = (Examples.cpu 3 3).roi_size_y ∧
    Examples.used.frame_size_x = some 9 ∧ (Examples.cpu 3 3).frame_size_x = none ∧
    (((PSFWrapperCPU.forward_frames Examples.lib (Examples.cpu 3 3) 4 3 (Examples.ints [1]) 2
          (Examples.floats [0]) (Examples.floats [0]) (Examples.floats [0]) (Examples.ints [0])
          (Examples.ints [0]) (Examples.floats [1])).self
        = { Examples.cpu 3 3 with frame_size_x := some 4, frame_size_y := some 3 }) ∧
    (PSFWrapperCPU.forward_rois Examples.lib (Examples.cpu 3 3) (Examples.floats [0])
        (Examples.floats [0]) (Examples.floats [0]) (Examples.floats [1])).self
      = Examples.cpu 3 3 ∧
    (PSFWrapperCPU.forward_frames Examples.lib Examples.used 4 3 (Examples.ints [1]) 2
        (Examples.floats [0]) (Examples.floats [0]) (Examples.floats [0]) (Examples.ints [0])
        (Examples.ints [0]) (Examples.floats [1])).result
      = (PSFWrapperCPU.forward_frames Examples.lib (Examples.cpu 3 3) 4 3 (Examples.ints [1]) 2
        (Examples.floats [0]) (Examples.floats [0]) (Examples.floats [0]) (Examples.ints [0])
        (Examples.ints [0]) (Examples.floats [1])).result ∧
    (PSFWrapperCPU.forward_frames Examples.lib Examples.used 4 3 (Examples.ints [1]) 2
        (Examples.floats [0]) (Examples.floats [0]) (Examples.floats [0]) (Examples.ints [0])
        (Examples.ints [0]) (Examples.floats [1])).calls
      = (PSFWrapperCPU.forward_frames Examples.lib (Examples.cpu 3 3) 4 3 (Examples.ints [1]) 2
        (Examples.floats [0]) (Examples.floats [0]) (Examples.floats [0]) (Examples.ints [0])
        (Examples.ints [0]) (Examples.floats [1])).calls) :=
  ⟨rfl, rfl, rfl, rfl, rfl,
    C10_wrapper_state Examples.lib (Examples.cpu 3 3) Examples.used
      4 3 (Examples.ints [1]) 2 (Examples.floats [0]) (Examples.floats [0]) (Examples.floats [0])
      (Examples.ints [0]) (Examples.ints [0]) (Examples.floats [1])
      (Examples.floats [0]) (Examples.floats [0]) (Examples.floats [0]) (Examples.floats [1])
      rfl rfl rfl⟩

end claims

end DECODE
